import Mathlib

set_option maxRecDepth 100000

/-!
Verification of the hospital route dashboard (`hospital.py`).

The script loads a spreadsheet of Malaysian hospitals, drops rows missing
coordinates, lets the user pick two hospitals (per-state selectors), calls the
OpenRouteService directions API, derives distance/time figures, and offers a
one-row Excel export.  We embed the data model and the lookup-and-display flow
shallowly: pandas rows become a list of records, Python floats become `ℚ`,
the external routing client becomes an explicit function argument, and the
`try/except` block becomes `Except String`.
-/

/-- One row of the loaded spreadsheet, before `dropna`: the coordinate cells
may be missing (pandas NaN), modelled as `Option ℚ`. -/
structure RawRow where
  Hospital : String
  State : String
  Latitude : Option ℚ
  Longitude : Option ℚ
deriving DecidableEq, Repr

/-- The user's sidebar choices (SelectionState): credential, assumed speed,
and the two state+hospital selections.  `st.number_input` returns an integer
here (bounds 10..200, default 80), so the speed is a `ℕ`. -/
structure Selection where
  api_key : String
  speed_input : ℕ
  state_a : String
  hospital_a : String
  state_b : String
  hospital_b : String
deriving DecidableEq, Repr

/-- `df.dropna(subset=["Latitude", "Longitude"])`: keep exactly the rows
whose two coordinate cells are both present. -/
def dropnaCoords (rows : List RawRow) : List RawRow :=
  rows.filter fun r => r.Latitude.isSome && r.Longitude.isSome

/-- Worker for `uniqueFirst`: keep each value the first time it is seen. -/
def uniqueFirstAux : List String → List String → List String
  | _, [] => []
  | seen, x :: xs =>
    if x ∈ seen then uniqueFirstAux seen xs
    else x :: uniqueFirstAux (x :: seen) xs

/-- Pandas `Series.unique()`: the distinct values in order of first
occurrence. -/
def uniqueFirst (l : List String) : List String :=
  uniqueFirstAux [] l

/-- `df[df["State"] == s]["Hospital"].unique()`: the selectable hospital
names for one state, computed from the cleaned dataframe. -/
def hospitalsFor (rows : List RawRow) (s : String) : List String :=
  uniqueFirst (((dropnaCoords rows).filter fun r => r.State = s).map (·.Hospital))

/-- The `(longitude, latitude)` pair of a row, when both cells are present
(`coord_a = (a_row["Longitude"], a_row["Latitude"])`). -/
def rowCoord (r : RawRow) : Option (ℚ × ℚ) :=
  match r.Longitude, r.Latitude with
  | some lon, some lat => some (lon, lat)
  | _, _ => none

/-- A map marker: `folium.Marker([lat, lon], popup=f"{Hospital} ({State})")`,
modelled as (latitude, longitude, popup text). -/
def rowMarker (r : RawRow) : Option (ℚ × ℚ × String) :=
  (rowCoord r).map fun c => (c.2, c.1, r.Hospital ++ " (" ++ r.State ++ ")")

/-- The blue markers drawn by the `for _, row in df.iterrows()` loop: one per
row of the cleaned dataframe. -/
def markers (rows : List RawRow) : List (ℚ × ℚ × String) :=
  (dropnaCoords rows).filterMap rowMarker

/-- `df[df["Hospital"] == name].iloc[0]`: the first row whose `Hospital`
column equals the selected name (the selected state is not consulted);
`none` when no row matches (pandas raises `IndexError`). -/
def firstRowNamed (rows : List RawRow) (name : String) : Option RawRow :=
  (rows.filter fun r => r.Hospital = name).head?

/-- The coordinate pair the lookup sends for one selected hospital name. -/
def coordOf (rows : List RawRow) (name : String) : Option (ℚ × ℚ) :=
  (firstRowNamed rows name).bind rowCoord

/-- Both endpoint coordinates of lines 72-75, `none` when either row lookup
or coordinate read fails. -/
def coordsUsed (rows : List RawRow) (sel : Selection) : Option ((ℚ × ℚ) × (ℚ × ℚ)) :=
  match coordOf rows sel.hospital_a, coordOf rows sel.hospital_b with
  | some ca, some cb => some (ca, cb)
  | _, _ => none

/-- One segment of the directions response: aggregate distance in meters and
duration in seconds. -/
structure Segment where
  distance : ℚ
  duration : ℚ
deriving DecidableEq, Repr

/-- The `properties` object of a GeoJSON feature, holding the segments. -/
structure FeatureProps where
  segments : List Segment
deriving DecidableEq, Repr

/-- One feature of the GeoJSON directions response. -/
structure Feature where
  properties : FeatureProps
deriving DecidableEq, Repr

/-- The routing service's GeoJSON response: a list of features. -/
structure RouteResponse where
  features : List Feature
deriving DecidableEq, Repr

/-- The external directions service (`openrouteservice.Client(...).directions`):
given the two coordinates and the credential it either returns a response or
fails (network error, bad credential, no route found).  The profile and
format arguments are the constants `"driving-car"` and `"geojson"`. -/
def Service : Type :=
  (ℚ × ℚ) → (ℚ × ℚ) → String → Except String RouteResponse

/-- `route["features"][0]["properties"]["segments"][0]`: the first segment of
the first feature; `none` when the response shape is malformed (Python would
raise `IndexError`/`KeyError`). -/
def firstSegment (resp : RouteResponse) : Option Segment :=
  (resp.features.head?).bind fun f => f.properties.segments.head?

/-- Python `int()` applied to a number: truncation toward zero. -/
def pyInt (q : ℚ) : ℤ :=
  if 0 ≤ q then ⌊q⌋ else -⌊-q⌋

/-- `distance_km = distance_m / 1000` (line 87). -/
def distanceKmOf (distance_m : ℚ) : ℚ :=
  distance_m / 1000

/-- `duration_hr = duration_s / 3600` (line 88). -/
def durationHrOf (duration_s : ℚ) : ℚ :=
  duration_s / 3600

/-- `est_time_hr = distance_km / speed_input` (line 89). -/
def estTimeHrOf (distance_m : ℚ) (speed : ℕ) : ℚ :=
  distanceKmOf distance_m / (speed : ℚ)

/-- `est_hours = int(est_time_hr)` (line 90). -/
def estHoursOf (est_time_hr : ℚ) : ℤ :=
  pyInt est_time_hr

/-- `est_minutes = int((est_time_hr - est_hours) * 60)` (line 91). -/
def estMinutesOf (est_time_hr : ℚ) : ℤ :=
  pyInt ((est_time_hr - (estHoursOf est_time_hr : ℚ)) * 60)

/-- The banker's rounding of Python's float formatting: nearest integer,
ties to even. -/
def roundHalfEven (q : ℚ) : ℤ :=
  let f := ⌊q⌋
  let r := q - (f : ℚ)
  if r < 1 / 2 then f
  else if 1 / 2 < r then f + 1
  else if f % 2 = 0 then f else f + 1

/-- Python `f"{x:.2f}"`: the value rounded to two decimals, rendered with
exactly two fractional digits. -/
def fmtFixed2 (q : ℚ) : String :=
  let n : ℤ := roundHalfEven (q * 100)
  let sign := if n < 0 then "-" else ""
  let m := n.natAbs
  let frac := m % 100
  sign ++ toString (m / 100) ++ "." ++ (if frac < 10 then "0" else "") ++ toString frac

/-- `f"{est_hours} hr {est_minutes} min"`: the user-speed ETA display string
built from `est_time_hr`. -/
def estTimeStringOf (est_time_hr : ℚ) : String :=
  toString (estHoursOf est_time_hr) ++ " hr " ++ toString (estMinutesOf est_time_hr) ++ " min"

/-- `f"{duration_hr:.2f} hr"`: the API-time display string. -/
def apiTimeStringOf (duration_hr : ℚ) : String :=
  fmtFixed2 duration_hr ++ " hr"

/-- The `route_data` summary record of lines 110-118 (SummaryRecord): the
two hospitals, their states, the numeric distance and the two pre-formatted
time strings. -/
structure RouteData where
  hospitalA : String
  stateA : String
  hospitalB : String
  stateB : String
  distance_km : ℚ
  estTime : String
  apiTime : String
deriving DecidableEq, Repr

/-- Lines 84-118 given a successfully extracted first segment: the derived
figures and the summary record. -/
def buildRouteData (sel : Selection) (seg : Segment) : RouteData :=
  let distance_km := distanceKmOf seg.distance
  let duration_hr := durationHrOf seg.duration
  let est_time_hr := estTimeHrOf seg.distance sel.speed_input
  { hospitalA := sel.hospital_a
    stateA := sel.state_a
    hospitalB := sel.hospital_b
    stateB := sel.state_b
    distance_km := distance_km
    estTime := estTimeStringOf est_time_hr
    apiTime := apiTimeStringOf duration_hr }

/-- The body of the `try` block (lines 71-118): row lookups, the one service
call, response extraction, and the summary record; any failure surfaces as
`Except.error` with the underlying message, as the `except` clause sees it. -/
def computeRoute (rows : List RawRow) (sel : Selection) (svc : Service) :
    Except String RouteData :=
  match coordsUsed rows sel with
  | none => .error "single positional indexer is out-of-bounds"
  | some (ca, cb) =>
    match svc ca cb sel.api_key with
    | .error e => .error e
    | .ok route =>
      match firstSegment route with
      | none => .error "list index out of range"
      | some seg => .ok (buildRouteData sel seg)

/-- The guard of line 70, Python truthiness of the three values: the lookup
runs only when the credential and both hospital selections are non-empty. -/
def attempted (sel : Selection) : Bool :=
  sel.api_key ≠ "" && sel.hospital_a ≠ "" && sel.hospital_b ≠ ""

/-- What one evaluation of the script shows: the optional credential warning,
the list of error messages, the summary record (if any), and whether the
download control is rendered. -/
structure AppOutput where
  warning : Option String
  errors : List String
  route_data : Option RouteData
  downloadShown : Bool
deriving Repr

/-- One evaluation of the lookup-and-display flow (lines 68-138):
`route_data` starts as `None`; when the guard holds the `try` block runs and
either stores the record or shows the single error message; with an empty
credential only the informational warning is shown; the download control is
rendered iff `route_data` is set. -/
def runApp (rows : List RawRow) (sel : Selection) (svc : Service) : AppOutput :=
  let df := dropnaCoords rows
  if attempted sel then
    match computeRoute df sel svc with
    | .ok rd =>
      { warning := none, errors := [], route_data := some rd, downloadShown := true }
    | .error e =>
      { warning := none, errors := ["⚠️ Error calculating route: " ++ e],
        route_data := none, downloadShown := false }
  else if sel.api_key = "" then
    { warning := some "Please enter your OpenRouteService API key in the sidebar.",
      errors := [], route_data := none, downloadShown := false }
  else
    { warning := none, errors := [], route_data := none, downloadShown := false }

/-- How many times one evaluation invokes the external directions service:
the straight-line `try` block calls it once, after the row lookups succeed,
and never retries. -/
def svcCallCount (rows : List RawRow) (sel : Selection) : ℕ :=
  if attempted sel then
    if (coordsUsed (dropnaCoords rows) sel).isSome then 1 else 0
  else 0

/-- A spreadsheet cell of the export: numeric or pre-formatted text. -/
inductive Cell where
  | num : ℚ → Cell
  | str : String → Cell
deriving DecidableEq, Repr

/-- The single exported row (lines 110-118 and 129-138): the dict keys in
source order paired with their cell values. -/
def exportRow (rd : RouteData) : List (String × Cell) :=
  [("Hospital A", .str rd.hospitalA),
   ("State A", .str rd.stateA),
   ("Hospital B", .str rd.hospitalB),
   ("State B", .str rd.stateB),
   ("Distance (km)", .num rd.distance_km),
   ("Est. Time (user speed)", .str rd.estTime),
   ("API Time (hr)", .str rd.apiTime)]

/-- `file_name="hospital_route.xlsx"` of the download button. -/
def exportFileName : String :=
  "hospital_route.xlsx"

/-! Concrete data used to instantiate the theorems: a small dataset in the
shape of the loaded spreadsheet (one row has a missing latitude), a
selection, and a few service behaviours. -/

/-- A small concrete dataset: two complete rows and one row with a missing
latitude cell. -/
def dfEx : List RawRow :=
  [{ Hospital := "Hospital Kuala Lumpur", State := "W.P. Kuala Lumpur",
     Latitude := some 3, Longitude := some 101 },
   { Hospital := "Hospital Pulau Pinang", State := "Pulau Pinang",
     Latitude := some 5, Longitude := some 100 },
   { Hospital := "Hospital Tanpa Koordinat", State := "Johor",
     Latitude := none, Longitude := some 103 }]

/-- The dataset row whose latitude cell is missing. -/
def rowMissing : RawRow :=
  { Hospital := "Hospital Tanpa Koordinat", State := "Johor",
    Latitude := none, Longitude := some 103 }

/-- A concrete selection: credential present, default speed 80 km/h. -/
def selEx : Selection :=
  { api_key := "key", speed_input := 80,
    state_a := "W.P. Kuala Lumpur", hospital_a := "Hospital Kuala Lumpur",
    state_b := "Pulau Pinang", hospital_b := "Hospital Pulau Pinang" }

/-- The spec's scenario segment: distance_m = 123400, duration_s = 5400. -/
def segEx : Segment :=
  { distance := 123400, duration := 5400 }

/-- A service answering every request with the scenario segment. -/
def svcScenario : Service := fun _ _ _ =>
  .ok { features := [{ properties := { segments := [segEx] } }] }

/-- A second service with the same behaviour as `svcScenario`, written as a
separate definition. -/
def svcScenarioB : Service := fun _ _ _ =>
  .ok { features := [{ properties := { segments := [segEx] } }] }

/-- A service that always fails, as a network error would. -/
def svcFail : Service := fun _ _ _ =>
  .error "Connection error"

/-- A service reporting a route of distance 0 m (as for identical
endpoints). -/
def svcZeroDist : Service := fun _ _ _ =>
  .ok { features := [{ properties := { segments := [{ distance := 0, duration := 0 }] } }] }

/-- A selection with both endpoints set to the same hospital. -/
def selSame : Selection :=
  { api_key := "key", speed_input := 80,
    state_a := "W.P. Kuala Lumpur", hospital_a := "Hospital Kuala Lumpur",
    state_b := "W.P. Kuala Lumpur", hospital_b := "Hospital Kuala Lumpur" }

/-- A dataset where two rows in different states share a hospital name. -/
def dfDup : List RawRow :=
  [{ Hospital := "Hospital Umum", State := "Sarawak",
     Latitude := some 1, Longitude := some 110 },
   { Hospital := "Hospital Umum", State := "Sabah",
     Latitude := some 6, Longitude := some 116 }]

/-- A selection picking the shared name for both endpoints, under the two
different states. -/
def selDup : Selection :=
  { api_key := "key", speed_input := 80,
    state_a := "Sarawak", hospital_a := "Hospital Umum",
    state_b := "Sabah", hospital_b := "Hospital Umum" }

/-- The selection with an empty credential. -/
def selNoKey : Selection :=
  { api_key := "", speed_input := 80,
    state_a := "W.P. Kuala Lumpur", hospital_a := "Hospital Kuala Lumpur",
    state_b := "Pulau Pinang", hospital_b := "Hospital Pulau Pinang" }

/-! Helper lemmas shared by the claim theorems. -/

/-- Python `int()` agrees with the floor on non-negative values. -/
theorem pyInt_of_nonneg (q : ℚ) (h : 0 ≤ q) : pyInt q = ⌊q⌋ :=
  if_pos h

/-- A successful extraction makes `computeRoute` return the record built
from the extracted segment. -/
theorem computeRoute_ok (rows : List RawRow) (sel : Selection) (svc : Service)
    (ca cb : ℚ × ℚ) (route : RouteResponse) (seg : Segment)
    (hc : coordsUsed rows sel = some (ca, cb))
    (hs : svc ca cb sel.api_key = .ok route)
    (hf : firstSegment route = some seg) :
    computeRoute rows sel svc = .ok (buildRouteData sel seg) := by
  unfold computeRoute
  rw [hc]
  dsimp only
  rw [hs]
  dsimp only
  rw [hf]

/-- C1: for every successful route lookup the program takes the first route
segment's distance (meters) and duration (seconds) from the service response
and converts them as distanceKm = distance_m / 1000, durationHrApi =
duration_s / 3600 and estimatedHrUser = distanceKm / assumedSpeedKmh, and the
summary record stores the two display strings built from these figures. -/
theorem routeConversionLaw (rows : List RawRow) (sel : Selection) (svc : Service)
    (ca cb : ℚ × ℚ) (route : RouteResponse) (seg : Segment)
    (hc : coordsUsed rows sel = some (ca, cb))
    (hs : svc ca cb sel.api_key = .ok route)
    (hf : firstSegment route = some seg) :
    computeRoute rows sel svc = .ok (buildRouteData sel seg) ∧
    (buildRouteData sel seg).distance_km = seg.distance / 1000 ∧
    durationHrOf seg.duration = seg.duration / 3600 ∧
    estTimeHrOf seg.distance sel.speed_input =
      (buildRouteData sel seg).distance_km / (sel.speed_input : ℚ) ∧
    (buildRouteData sel seg).estTime =
      estTimeStringOf (estTimeHrOf seg.distance sel.speed_input) ∧
    (buildRouteData sel seg).apiTime = fmtFixed2 (durationHrOf seg.duration) ++ " hr" :=
  ⟨computeRoute_ok rows sel svc ca cb route seg hc hs hf, rfl, rfl, rfl, rfl, rfl⟩

/-- C1 witness: the spec's scenario.  With distance_m = 123400,
duration_s = 5400 and assumedSpeedKmh = 80 the lookup succeeds and yields
distanceKm = 123.40, durationHrApi = 1.50, estimatedHrUser = 1.5425, the
user-time string "1 hr 32 min" and the API-time string "1.50 hr". -/
theorem routeConversionLaw_witness :
    computeRoute (dropnaCoords dfEx) selEx svcScenario = .ok (buildRouteData selEx segEx) ∧
    (buildRouteData selEx segEx).distance_km = 617 / 5 ∧
    durationHrOf segEx.duration = 3 / 2 ∧
    estTimeHrOf segEx.distance selEx.speed_input = 617 / 400 ∧
    (buildRouteData selEx segEx).estTime = "1 hr 32 min" ∧
    (buildRouteData selEx segEx).apiTime = "1.50 hr" := by
  refine ⟨(routeConversionLaw (dropnaCoords dfEx) selEx svcScenario
    ((101 : ℚ), (3 : ℚ)) ((100 : ℚ), (5 : ℚ)) _ segEx rfl rfl rfl).1,
    ?_, ?_, ?_, ?_, ?_⟩
  · with_unfolding_all decide
  · with_unfolding_all decide
  · with_unfolding_all decide
  · with_unfolding_all decide
  · with_unfolding_all decide

/-- C2: the remainder minutes shown and exported are truncated, never
rounded: est_minutes equals floor((est − floor est) × 60) for every
non-negative estimated time, and in particular 2.75 hours renders as
"2 hr 45 min" and 1.999 hours as "1 hr 59 min". -/
theorem minutesTruncationLaw (est : ℚ) (h : 0 ≤ est) :
    estMinutesOf est = ⌊(est - (⌊est⌋ : ℚ)) * 60⌋ ∧
    estTimeStringOf (11 / 4) = "2 hr 45 min" ∧
    estTimeStringOf (1999 / 1000) = "1 hr 59 min" := by
  refine ⟨?_, by with_unfolding_all decide, by with_unfolding_all decide⟩
  have hfl : estHoursOf est = ⌊est⌋ := pyInt_of_nonneg est h
  have hnn : (0 : ℚ) ≤ (est - (⌊est⌋ : ℚ)) * 60 := by
    have h1 : (0 : ℚ) ≤ est - (⌊est⌋ : ℚ) := sub_nonneg.mpr (Int.floor_le est)
    positivity
  unfold estMinutesOf
  rw [hfl, pyInt_of_nonneg _ hnn]

/-- C2 witness: the truncation law applied at est = 2.75, together with the
two concrete renderings. -/
theorem minutesTruncationLaw_witness :
    (0 : ℚ) ≤ 11 / 4 ∧
    (estMinutesOf (11 / 4) = ⌊(((11 : ℚ) / 4) - ((⌊(11 : ℚ) / 4⌋ : ℤ) : ℚ)) * 60⌋ ∧
     estTimeStringOf (11 / 4) = "2 hr 45 min" ∧
     estTimeStringOf (1999 / 1000) = "1 hr 59 min") ∧
    estMinutesOf (11 / 4) = 45 ∧
    estMinutesOf (1999 / 1000) = 59 :=
  ⟨by norm_num, minutesTruncationLaw (11 / 4) (by norm_num),
   by with_unfolding_all decide, by with_unfolding_all decide⟩

/-- C3: after every evaluation of the lookup-and-display flow the summary
record exists iff the guard held and the lookup succeeded; any failure (and
any skipped run) leaves route_data cleared, and the export control mirrors
route_data exactly, so no stale summary is shown or exportable. -/
theorem summaryExistsIffSuccess (rows : List RawRow) (sel : Selection) (svc : Service) :
    (((runApp rows sel svc).route_data.isSome = true) ↔
      (attempted sel = true ∧
        ∃ rd, computeRoute (dropnaCoords rows) sel svc = .ok rd)) ∧
    (runApp rows sel svc).downloadShown = (runApp rows sel svc).route_data.isSome := by
  cases hA : attempted sel with
  | false =>
    by_cases hk : sel.api_key = "" <;> simp [runApp, hA, hk]
  | true =>
    cases hC : computeRoute (dropnaCoords rows) sel svc <;> simp [runApp, hA, hC]

/-- C4: every failure inside the lookup produces exactly one error message
embedding the underlying cause text, no summary record, no download control,
no credential warning, and at most one service call is ever made (no
retry). -/
theorem failureCollapses (rows : List RawRow) (sel : Selection) (svc : Service)
    (e : String) (h1 : attempted sel = true)
    (h2 : computeRoute (dropnaCoords rows) sel svc = .error e) :
    (runApp rows sel svc).errors = ["⚠️ Error calculating route: " ++ e] ∧
    (runApp rows sel svc).route_data = none ∧
    (runApp rows sel svc).downloadShown = false ∧
    (runApp rows sel svc).warning = none ∧
    svcCallCount rows sel ≤ 1 := by
  refine ⟨?_, ?_, ?_, ?_, ?_⟩ <;> simp [runApp, h1, h2, svcCallCount]
  split <;> simp

/-- C4 witness: a service that fails with "Connection error" yields the
single embedded error message, no record and no download control. -/
theorem failureCollapses_witness :
    attempted selEx = true ∧
    computeRoute (dropnaCoords dfEx) selEx svcFail = .error "Connection error" ∧
    (runApp dfEx selEx svcFail).errors = ["⚠️ Error calculating route: Connection error"] ∧
    (runApp dfEx selEx svcFail).route_data = none ∧
    (runApp dfEx selEx svcFail).downloadShown = false ∧
    (runApp dfEx selEx svcFail).warning = none ∧
    svcCallCount dfEx selEx ≤ 1 := by
  have h := failureCollapses dfEx selEx svcFail "Connection error" (by decide) rfl
  exact ⟨by decide, rfl, h.1, h.2.1, h.2.2.1, h.2.2.2.1, h.2.2.2.2⟩

/-- C5: with an empty credential no lookup is attempted, no service call is
made, no error is raised and no summary or export is available; only the
informational key prompt is shown. -/
theorem emptyKeySkips (rows : List RawRow) (sel : Selection) (svc : Service)
    (h : sel.api_key = "") :
    svcCallCount rows sel = 0 ∧
    (runApp rows sel svc).errors = [] ∧
    (runApp rows sel svc).route_data = none ∧
    (runApp rows sel svc).downloadShown = false ∧
    (runApp rows sel svc).warning =
      some "Please enter your OpenRouteService API key in the sidebar." := by
  have hA : attempted sel = false := by
    simp [attempted, h]
  refine ⟨?_, ?_, ?_, ?_, ?_⟩ <;> simp [runApp, svcCallCount, hA, h]

/-- C5 witness: the empty-credential selection, under any service, shows the
prompt and nothing else. -/
theorem emptyKeySkips_witness :
    selNoKey.api_key = "" ∧
    svcCallCount dfEx selNoKey = 0 ∧
    (runApp dfEx selNoKey svcScenario).errors = [] ∧
    (runApp dfEx selNoKey svcScenario).route_data = none ∧
    (runApp dfEx selNoKey svcScenario).downloadShown = false ∧
    (runApp dfEx selNoKey svcScenario).warning =
      some "Please enter your OpenRouteService API key in the sidebar." := by
  have h := emptyKeySkips dfEx selNoKey svcScenario rfl
  exact ⟨rfl, h.1, h.2.1, h.2.2.1, h.2.2.2.1, h.2.2.2.2⟩

/-- C6: the lookup is deterministic in its inputs: repeating it with an
identical selection and a service that answers identically produces an
identical summary record. -/
theorem lookupDeterministic (rows : List RawRow) (sel selB : Selection)
    (svc svcB : Service) (h1 : sel = selB)
    (h2 : ∀ ca cb k, svc ca cb k = svcB ca cb k) :
    (runApp rows sel svc).route_data = (runApp rows selB svcB).route_data := by
  subst h1
  have hsvc : svc = svcB := funext fun ca => funext fun cb => funext fun k => h2 ca cb k
  rw [hsvc]

/-- C6 witness: two identically-behaving services (written as distinct
definitions) give the same summary record for the scenario selection. -/
theorem lookupDeterministic_witness :
    (runApp dfEx selEx svcScenario).route_data =
      (runApp dfEx selEx svcScenarioB).route_data :=
  lookupDeterministic dfEx selEx selEx svcScenario svcScenarioB rfl
    (fun _ _ _ => rfl)

/-- Every element of `uniqueFirstAux seen l` is an element of `l`. -/
theorem mem_of_mem_uniqueFirstAux (l : List String) (seen : List String)
    (x : String) (h : x ∈ uniqueFirstAux seen l) : x ∈ l := by
  induction l generalizing seen with
  | nil =>
    simp [uniqueFirstAux] at h
  | cons y ys ih =>
    rw [uniqueFirstAux] at h
    by_cases hy : y ∈ seen
    · rw [if_pos hy] at h
      exact List.mem_cons_of_mem _ (ih seen h)
    · rw [if_neg hy] at h
      rcases List.mem_cons.mp h with h1 | h2
      · exact h1 ▸ List.mem_cons_self _ _
      · exact List.mem_cons_of_mem _ (ih (y :: seen) h2)

/-- Every element of `uniqueFirst l` is an element of `l`. -/
theorem mem_of_mem_uniqueFirst (l : List String) (x : String)
    (h : x ∈ uniqueFirst l) : x ∈ l :=
  mem_of_mem_uniqueFirstAux l [] x h

/-- A successful `firstRowNamed` returns a row with the requested name, and
that row is the earliest such row of the dataset. -/
theorem firstRowNamed_spec (rows : List RawRow) (name : String) (ra : RawRow)
    (h : firstRowNamed rows name = some ra) :
    ra.Hospital = name ∧
    ∃ pre post, rows = pre ++ ra :: post ∧ ∀ r ∈ pre, r.Hospital ≠ name := by
  induction rows with
  | nil =>
    simp [firstRowNamed] at h
  | cons r rs ih =>
    rw [firstRowNamed, List.filter_cons] at h
    by_cases hr : r.Hospital = name
    · rw [if_pos (by simpa using hr)] at h
      have hra : r = ra := by simpa using h
      subst hra
      exact ⟨hr, [], rs, rfl, by simp⟩
    · rw [if_neg (by simpa using hr)] at h
      obtain ⟨h1, pre, post, he, hp⟩ := ih h
      refine ⟨h1, r :: pre, post, by simp [he], ?_⟩
      intro z hz
      rcases List.mem_cons.mp hz with h3 | h3
      · exact h3 ▸ hr
      · exact hp z h3

/-- C7 counterexample: the code never checks positivity.  With a non-empty
credential and valid coordinates, a service response reporting a 0 m route
(as for identical endpoints, which the program permits) gives a successful
lookup whose distanceKm is 0, not positive. -/
theorem distancePositiveRefuted :
    (runApp dfEx selSame svcZeroDist).route_data =
      some (buildRouteData selSame { distance := 0, duration := 0 }) ∧
    ¬ (0 < (buildRouteData selSame { distance := 0, duration := 0 }).distance_km) := by
  constructor
  · rfl
  · with_unfolding_all decide

/-- C7 amended: every successful lookup yields estimatedHrUser =
distanceKm / assumedSpeedKmh exactly, and distanceKm is positive whenever
the distance the service reports is positive (the code itself never enforces
positivity). -/
theorem successDistanceFromService (rows : List RawRow) (sel : Selection)
    (svc : Service) (ca cb : ℚ × ℚ) (route : RouteResponse) (seg : Segment)
    (hc : coordsUsed rows sel = some (ca, cb))
    (hs : svc ca cb sel.api_key = .ok route)
    (hf : firstSegment route = some seg)
    (hd : 0 < seg.distance) :
    computeRoute rows sel svc = .ok (buildRouteData sel seg) ∧
    0 < (buildRouteData sel seg).distance_km ∧
    estTimeHrOf seg.distance sel.speed_input =
      (buildRouteData sel seg).distance_km / (sel.speed_input : ℚ) := by
  refine ⟨computeRoute_ok rows sel svc ca cb route seg hc hs hf, ?_, rfl⟩
  have h1000 : (0 : ℚ) < 1000 := by norm_num
  exact div_pos hd h1000

/-- C7 witness: the amended statement at the scenario input, whose reported
distance 123400 m is positive. -/
theorem successDistanceFromService_witness :
    (0 : ℚ) < segEx.distance ∧
    computeRoute (dropnaCoords dfEx) selEx svcScenario = .ok (buildRouteData selEx segEx) ∧
    0 < (buildRouteData selEx segEx).distance_km ∧
    estTimeHrOf segEx.distance selEx.speed_input =
      (buildRouteData selEx segEx).distance_km / (selEx.speed_input : ℚ) := by
  have h := successDistanceFromService (dropnaCoords dfEx) selEx svcScenario
    ((101 : ℚ), (3 : ℚ)) ((100 : ℚ), (5 : ℚ)) _ segEx rfl rfl rfl (by norm_num [segEx])
  exact ⟨by norm_num [segEx], h.1, h.2.1, h.2.2⟩

/-- C8: a dataset row with a missing latitude or longitude is excluded by
the load-time dropna, so it is never a row of the cleaned dataframe; every
selectable hospital name and every map marker comes from a cleaned row, and
every cleaned row has both coordinates present.  The exclusion itself
returns only the surviving rows, with no count. -/
theorem missingCoordRowExcluded (rows : List RawRow) (r : RawRow)
    (h1 : r ∈ rows) (h2 : r.Latitude = none ∨ r.Longitude = none) :
    r ∉ dropnaCoords rows ∧
    (∀ s name, name ∈ hospitalsFor rows s →
      ∃ rr, rr ∈ dropnaCoords rows ∧ rr.State = s ∧ rr.Hospital = name) ∧
    (∀ rr, rr ∈ dropnaCoords rows → rr.Latitude.isSome ∧ rr.Longitude.isSome) ∧
    (∀ mk, mk ∈ markers rows → ∃ rr, rr ∈ dropnaCoords rows ∧ rowMarker rr = some mk) := by
  refine ⟨?_, ?_, ?_, ?_⟩
  · intro hmem
    rw [dropnaCoords, List.mem_filter] at hmem
    rcases h2 with h | h <;> rw [h] at hmem <;> simp at hmem
  · intro s name hname
    have hmap := mem_of_mem_uniqueFirst _ name hname
    rw [List.mem_map] at hmap
    obtain ⟨rr, hrr, hname2⟩ := hmap
    rw [List.mem_filter] at hrr
    exact ⟨rr, hrr.1, by simpa using hrr.2, hname2⟩
  · intro rr hrr
    rw [dropnaCoords, List.mem_filter] at hrr
    simpa using hrr.2
  · intro mk hmk
    rw [markers, List.mem_filterMap] at hmk
    obtain ⟨rr, hrr, hmka⟩ := hmk
    exact ⟨rr, hrr, hmka⟩

/-- C8 witness: the concrete row with a missing latitude is in the dataset
but not in the cleaned dataframe, and the selectors for its state offer no
hospital from it. -/
theorem missingCoordRowExcluded_witness :
    rowMissing ∈ dfEx ∧
    rowMissing.Latitude = none ∧
    rowMissing ∉ dropnaCoords dfEx ∧
    hospitalsFor dfEx "Johor" = [] ∧
    markers dfEx =
      [((3 : ℚ), (101 : ℚ), "Hospital Kuala Lumpur (W.P. Kuala Lumpur)"),
       ((5 : ℚ), (100 : ℚ), "Hospital Pulau Pinang (Pulau Pinang)")] := by
  refine ⟨by decide, rfl, ?_, rfl, rfl⟩
  exact (missingCoordRowExcluded dfEx rowMissing (by decide) (Or.inl rfl)).1

/-- C9: the export is a single row with exactly the columns Hospital A,
State A, Hospital B, State B, Distance (km), Est. Time (user speed) and
API Time (hr), offered under the fixed filename hospital_route.xlsx; the two
time columns hold the pre-formatted strings while the distance column is
numeric. -/
theorem exportRowShape (sel : Selection) (seg : Segment) :
    (exportRow (buildRouteData sel seg)).map Prod.fst =
      ["Hospital A", "State A", "Hospital B", "State B", "Distance (km)",
       "Est. Time (user speed)", "API Time (hr)"] ∧
    exportFileName = "hospital_route.xlsx" ∧
    exportRow (buildRouteData sel seg) =
      [("Hospital A", .str sel.hospital_a),
       ("State A", .str sel.state_a),
       ("Hospital B", .str sel.hospital_b),
       ("State B", .str sel.state_b),
       ("Distance (km)", .num (distanceKmOf seg.distance)),
       ("Est. Time (user speed)",
         .str (estTimeStringOf (estTimeHrOf seg.distance sel.speed_input))),
       ("API Time (hr)", .str (apiTimeStringOf (durationHrOf seg.duration)))] :=
  ⟨rfl, rfl, rfl⟩

/-- C10: the endpoint coordinates come from the first dataset row whose
Hospital name equals the selected name; the selected states play no part in
the coordinates, any earlier row with the name wins, and selecting the same
hospital for A and B yields identical coordinates. -/
theorem coordinatesIgnoreState (rows : List RawRow) (sel : Selection)
    (s1 s2 : String) (ca cb : ℚ × ℚ)
    (h : coordsUsed rows sel = some (ca, cb)) :
    coordsUsed rows { sel with state_a := s1, state_b := s2 } = some (ca, cb) ∧
    coordOf rows sel.hospital_a = some ca ∧
    coordOf rows sel.hospital_b = some cb ∧
    (∃ ra pre post, firstRowNamed rows sel.hospital_a = some ra ∧
      rowCoord ra = some ca ∧ ra.Hospital = sel.hospital_a ∧
      rows = pre ++ ra :: post ∧ ∀ r ∈ pre, r.Hospital ≠ sel.hospital_a) ∧
    (sel.hospital_a = sel.hospital_b → ca = cb) := by
  have hAB : coordOf rows sel.hospital_a = some ca ∧
      coordOf rows sel.hospital_b = some cb := by
    unfold coordsUsed at h
    cases hA : coordOf rows sel.hospital_a with
    | none => rw [hA] at h; cases h
    | some pa =>
      cases hB : coordOf rows sel.hospital_b with
      | none => rw [hA, hB] at h; cases h
      | some pb =>
        rw [hA, hB] at h
        injection h with h5
        obtain ⟨h3, h4⟩ := Prod.mk.inj h5
        subst h3
        subst h4
        exact ⟨rfl, rfl⟩
  refine ⟨h, hAB.1, hAB.2, ?_, ?_⟩
  · have hA := hAB.1
    unfold coordOf at hA
    cases hR : firstRowNamed rows sel.hospital_a with
    | none => rw [hR] at hA; cases hA
    | some ra =>
      rw [hR] at hA
      obtain ⟨hn, pre, post, he, hp⟩ := firstRowNamed_spec rows sel.hospital_a ra hR
      exact ⟨ra, pre, post, rfl, hA, hn, he, hp⟩
  · intro heq
    have hA := hAB.1
    rw [heq, hAB.2] at hA
    injection hA with h6
    exact h6.symm

/-- C10 witness: in a dataset where two rows in different states share the
name "Hospital Umum", both endpoints resolve to the earlier (Sarawak) row's
coordinates, the states have no effect, and A = B gives identical
coordinates. -/
theorem coordinatesIgnoreState_witness :
    coordsUsed dfDup selDup = some ((((110 : ℚ), (1 : ℚ))), (((110 : ℚ), (1 : ℚ)))) ∧
    coordsUsed dfDup { selDup with state_a := "Sabah", state_b := "Sarawak" } =
      some ((((110 : ℚ), (1 : ℚ))), (((110 : ℚ), (1 : ℚ)))) ∧
    (selDup.hospital_a = selDup.hospital_b →
      (((110 : ℚ), (1 : ℚ))) = (((110 : ℚ), (1 : ℚ)))) := by
  have h := coordinatesIgnoreState dfDup selDup "Sabah" "Sarawak"
    ((110 : ℚ), (1 : ℚ)) ((110 : ℚ), (1 : ℚ)) rfl
  exact ⟨rfl, h.1, h.2.2.2.2⟩
